import Mathlib

/-!
Verification of the `example-erc721` and `example-pallet` pallets of
chainbridge-substrate, as a shallow embedding.

Modelling conventions:
* `U256` token ids and the supply counter are `Nat` (values below `2 ^ 256`);
  the source's `saturating_add(U256::one())` becomes `satAdd1`.
* `AccountId`, `Hash` and `ChainId` are `Nat`; `Vec<u8>` is `List Nat`.
* A `StorageMap` is an association list `List (Nat × α)` with Rust-map
  semantics: `insertA` replaces any earlier binding, `removeA` deletes it,
  `lookupA`/`containsKey` mirror `get`/`contains_key`.
* A dispatchable returns `Except DispatchError (state × emitted events)`;
  FRAME's transactional rollback of a failed extrinsic is `runErcCall` /
  `runPalletCall`, which keep the pre-state and submit nothing on error.
* External collaborators (bridge whitelist, bridge account, resource ids)
  are a `BridgeEnv` record of the pallet's `Config` associated items.
-/

namespace ChainBridge

/-- Lookup in an association list: the value of the first binding of key `k`
(models `StorageMap::get`). -/
def lookupA {α : Type} (k : Nat) : List (Nat × α) → Option α
  | [] => none
  | (k2, v) :: rest => if k2 = k then some v else lookupA k rest

/-- Delete every binding of key `k` (models `StorageMap::remove`). -/
def removeA {α : Type} (k : Nat) : List (Nat × α) → List (Nat × α)
  | [] => []
  | p :: rest => if p.1 = k then removeA k rest else p :: removeA k rest

/-- Insert a binding of key `k`, replacing any earlier one
(models `StorageMap::insert`). -/
def insertA {α : Type} (k : Nat) (v : α) (m : List (Nat × α)) : List (Nat × α) :=
  (k, v) :: removeA k m

/-- Models `StorageMap::contains_key`. -/
def containsKey {α : Type} (k : Nat) (m : List (Nat × α)) : Bool :=
  (lookupA k m).isSome

/-- The largest `U256` value. -/
def u256Max : Nat := 2 ^ 256 - 1

/-- Models `U256::saturating_add(U256::one())`. -/
def satAdd1 (n : Nat) : Nat := min (n + 1) u256Max

theorem lookupA_insertA_self {α : Type} (k : Nat) (v : α) (m : List (Nat × α)) :
    lookupA k (insertA k v m) = some v := by
  simp [insertA, lookupA]

theorem lookupA_removeA_self {α : Type} (k : Nat) (m : List (Nat × α)) :
    lookupA k (removeA k m) = none := by
  induction m with
  | nil => rfl
  | cons p rest ih =>
    by_cases h : p.1 = k
    · simp [removeA, h, ih]
    · simp [removeA, h, lookupA, ih]

theorem lookupA_removeA_ne {α : Type} {k j : Nat} (hne : j ≠ k) (m : List (Nat × α)) :
    lookupA j (removeA k m) = lookupA j m := by
  induction m with
  | nil => rfl
  | cons p rest ih =>
    by_cases h : p.1 = k
    · have hpj : ¬ p.1 = j := fun hc => hne (hc ▸ h)
      simp [removeA, h, lookupA, hpj, Ne.symm hne, ih]
    · by_cases hpj : p.1 = j
      · simp [removeA, h, lookupA, hpj, hne]
      · simp [removeA, h, lookupA, hpj, ih]

theorem lookupA_insertA_ne {α : Type} {k j : Nat} (hne : j ≠ k) (v : α) (m : List (Nat × α)) :
    lookupA j (insertA k v m) = lookupA j m := by
  have hk : ¬ k = j := fun hc => hne hc.symm
  simp [insertA, lookupA, hk, lookupA_removeA_ne hne]

theorem mem_of_lookupA {α : Type} {k : Nat} {v : α} {m : List (Nat × α)}
    (h : lookupA k m = some v) : (k, v) ∈ m := by
  induction m with
  | nil => simp [lookupA] at h
  | cons p rest ih =>
    by_cases hp : p.1 = k
    · simp [lookupA, hp] at h
      have hp2 : p = (k, v) := by
        cases p with
        | mk a b => exact Prod.ext hp h
      rw [hp2]
      exact List.mem_cons_self _ _
    · simp [lookupA, hp] at h
      exact List.mem_cons_of_mem _ (ih h)

theorem isSome_lookupA_of_mem {α : Type} {k : Nat} {v : α} {m : List (Nat × α)}
    (h : (k, v) ∈ m) : (lookupA k m).isSome = true := by
  induction m with
  | nil => simp at h
  | cons p rest ih =>
    rcases List.mem_cons.mp h with h1 | h2
    · simp [lookupA, ← h1]
    · by_cases hp : p.1 = k
      · simp [lookupA, hp]
      · simp [lookupA, hp]
        exact ih h2

/-- Dispatch errors of the two pallets and of the host runtime, flattened
into one type: `BadOrigin` from `ensure_root` / `ensure_signed` /
`BridgeOrigin`, the three `example-erc721` errors, `InvalidTransfer` from
`example-pallet`, and the Currency collaborator's insufficient-balance
failure. -/
inductive DispatchError where
  | BadOrigin
  | TokenIdDoesNotExist
  | TokenAlreadyExists
  | NotOwner
  | InvalidTransfer
  | InsufficientBalance
deriving DecidableEq

/-- Events deposited by the two pallets. -/
inductive Ev where
  | Minted (owner id : Nat)
  | Transferred (sender receiver id : Nat)
  | Burned (id : Nat)
  | Remark (hash : Nat)
deriving DecidableEq

/-- Call origins: `Root`, a signed account, or the bridge pallet's custom
origin (the one `BridgeOrigin: EnsureOrigin` recognizes). -/
inductive Origin where
  | Root
  | Signed (who : Nat)
  | Bridge
deriving DecidableEq

/-- Host-runtime `ensure_root`. -/
def ensure_root : Origin → Except DispatchError Unit
  | .Root => .ok ()
  | _ => .error .BadOrigin

/-- Host-runtime `ensure_signed`, yielding the signing account. -/
def ensure_signed : Origin → Except DispatchError Nat
  | .Signed who => .ok who
  | _ => .error .BadOrigin

namespace Erc721

/-- `Erc721Token { id, metadata }` from example-erc721. -/
structure Erc721Token where
  id : Nat
  metadata : List Nat
deriving DecidableEq

/-- The storage of the example-erc721 pallet: `Tokens`, `TokenOwner`
(both `StorageMap<TokenId, _>`) and `TokenCount : U256` (default zero). -/
structure Erc721State where
  tokens : List (Nat × Erc721Token)
  tokenOwner : List (Nat × Nat)
  tokenCount : Nat
deriving DecidableEq

/-- The `owner_of` storage getter. -/
def owner_of (s : Erc721State) (id : Nat) : Option Nat :=
  lookupA id s.tokenOwner

/-- `Pallet::mint_token` of example-erc721: fails with `TokenAlreadyExists`
if `Tokens` has the id; otherwise inserts the token, records the owner,
saturating-increments `TokenCount` and deposits `Minted(owner, id)`. -/
def mint_token (owner id : Nat) (metadata : List Nat) (s : Erc721State) :
    Except DispatchError (Erc721State × List Ev) :=
  if containsKey id s.tokens then .error .TokenAlreadyExists
  else
    .ok ({ tokens := insertA id { id := id, metadata := metadata } s.tokens,
           tokenOwner := insertA id owner s.tokenOwner,
           tokenCount := satAdd1 s.tokenCount },
         [.Minted owner id])

/-- `Pallet::transfer_from` of example-erc721 (`from` renamed `sender`,
a Lean keyword): `TokenIdDoesNotExist` if `owner_of` has no entry,
`NotOwner` if the recorded owner is not `sender`; otherwise rewrites the
`TokenOwner` entry to `receiver` and deposits `Transferred`. -/
def transfer_from (sender receiver id : Nat) (s : Erc721State) :
    Except DispatchError (Erc721State × List Ev) :=
  match lookupA id s.tokenOwner with
  | none => .error .TokenIdDoesNotExist
  | some owner =>
    if owner = sender then
      .ok ({ s with tokenOwner := insertA id receiver s.tokenOwner },
           [.Transferred sender receiver id])
    else .error .NotOwner

/-- `Pallet::burn_token` of example-erc721: `TokenIdDoesNotExist` if
`owner_of` has no entry, `NotOwner` if the recorded owner is not `sender`;
otherwise removes the `Tokens` and `TokenOwner` entries and deposits
`Burned(id)`. NOTE: the source updates `TokenCount` with
`saturating_add(U256::one())` — it increments on burn — and `satAdd1`
reproduces that faithfully. -/
def burn_token (sender id : Nat) (s : Erc721State) :
    Except DispatchError (Erc721State × List Ev) :=
  match lookupA id s.tokenOwner with
  | none => .error .TokenIdDoesNotExist
  | some owner =>
    if owner = sender then
      .ok ({ tokens := removeA id s.tokens,
             tokenOwner := removeA id s.tokenOwner,
             tokenCount := satAdd1 s.tokenCount },
           [.Burned id])
    else .error .NotOwner

/-- The `mint` dispatchable: root-gated `mint_token`. -/
def mint (origin : Origin) (owner id : Nat) (metadata : List Nat) (s : Erc721State) :
    Except DispatchError (Erc721State × List Ev) := do
  let _ ← ensure_root origin
  mint_token owner id metadata s

/-- The `transfer` dispatchable: signed-caller `transfer_from`. -/
def transfer (origin : Origin) (receiver id : Nat) (s : Erc721State) :
    Except DispatchError (Erc721State × List Ev) := do
  let sender ← ensure_signed origin
  transfer_from sender receiver id s

/-- The `burn` dispatchable of example-erc721: root-gated; looks up the
current owner itself (`owner_of(id).ok_or(TokenIdDoesNotExist)?`) and
passes that owner to `burn_token`. -/
def burn (origin : Origin) (id : Nat) (s : Erc721State) :
    Except DispatchError (Erc721State × List Ev) := do
  let _ ← ensure_root origin
  match lookupA id s.tokenOwner with
  | none => .error .TokenIdDoesNotExist
  | some owner => burn_token owner id s

/-- FRAME's transactional dispatch of an example-erc721 call: a failed
extrinsic is rolled back, keeping the pre-state, depositing no event, and
reporting the error. -/
def runErcCall (s : Erc721State) (r : Except DispatchError (Erc721State × List Ev)) :
    Erc721State × List Ev × Option DispatchError :=
  match r with
  | .ok (s2, evs) => (s2, evs, none)
  | .error e => (s, [], some e)

/-- The Token Store / Ownership Map coupling invariant of the spec:
an id has a `Tokens` entry exactly when it has a `TokenOwner` entry
(stated over the entries so that it is decidable on concrete states). -/
def storeOwnerInv (s : Erc721State) : Prop :=
  (∀ p ∈ s.tokens, containsKey p.1 s.tokenOwner = true) ∧
  (∀ p ∈ s.tokenOwner, containsKey p.1 s.tokens = true)

instance (s : Erc721State) : Decidable (storeOwnerInv s) := by
  unfold storeOwnerInv; infer_instance

theorem storeOwnerInv_iff (s : Erc721State) :
    storeOwnerInv s ↔
      ∀ id, (lookupA id s.tokens).isSome = (lookupA id s.tokenOwner).isSome := by
  constructor
  · rintro ⟨h1, h2⟩ id
    cases htok : lookupA id s.tokens with
    | some v =>
      have := h1 _ (mem_of_lookupA htok)
      simp [containsKey] at this
      simp [this]
    | none =>
      cases how : lookupA id s.tokenOwner with
      | some w =>
        have := h2 _ (mem_of_lookupA how)
        simp [containsKey, htok] at this
      | none => simp
  · intro h
    constructor
    · intro p hp
      have hs : (lookupA p.1 s.tokens).isSome = true := by
        cases p with
        | mk a b => exact isSome_lookupA_of_mem hp
      simpa [containsKey, ← h p.1] using hs
    · intro p hp
      have hs : (lookupA p.1 s.tokenOwner).isSome = true := by
        cases p with
        | mk a b => exact isSome_lookupA_of_mem hp
      simpa [containsKey, h p.1] using hs

end Erc721

namespace Example

/-- The example-pallet `Config` items supplied by the runtime together with
the bridge pallet's read-only collaborators: `chain_whitelisted`,
`account_id`, and the three resource identifiers
(`HashId`, `NativeTokenId`, `Erc721Id`). -/
structure BridgeEnv where
  whitelisted : Nat → Bool
  bridgeAccount : Nat
  hashId : List Nat
  nativeTokenId : List Nat
  erc721Id : List Nat

/-- A cross-chain transfer message handed to the bridge:
{destination chain identifier, resource identifier, opaque payload bytes}. -/
structure Message where
  dest : Nat
  resourceId : List Nat
  payload : List Nat
deriving DecidableEq

/-- `beBytes k n`: the low `k` bytes of `n`, most significant first. -/
def beBytes : Nat → Nat → List Nat
  | 0, _ => []
  | k + 1, n => n / 2 ^ (8 * k) % 256 :: beBytes k n

/-- The 32-byte big-endian encoding of a `U256`
(models `U256::to_big_endian` into a `[0u8; 32]` buffer). -/
def toBigEndian32 (n : Nat) : List Nat := beBytes 32 n

/-- Modelled from the spec: `transfer_nonfungible` of the chainbridge
pallet is not under src/; per the spec it submits a message carrying the
destination, the resource identifier, and a payload that is the
concatenation of the token identifier bytes, the recipient bytes and the
token metadata bytes. -/
def transfer_nonfungible (destId : Nat) (rid tokenIdBytes recipient metadata : List Nat) :
    Message :=
  { dest := destId, resourceId := rid, payload := tokenIdBytes ++ recipient ++ metadata }

/-- Modelled from the spec: `transfer_fungible` of the chainbridge pallet
is not under src/; per the spec it submits a message carrying the
destination, the resource identifier, and a payload of the amount encoded
as an unsigned big-endian integer plus the recipient bytes. -/
def transfer_fungible (destId : Nat) (rid recipient : List Nat) (amount : Nat) : Message :=
  { dest := destId, resourceId := rid, payload := toBigEndian32 amount ++ recipient }

/-- Modelled from the spec: the Currency collaborator's balance move
(`Currency::transfer(source, dest, amount, AllowDeath)`), failing when the
source balance is insufficient and moving `amount` otherwise. Balances are
an association list with default balance `0`. -/
def getBal (a : Nat) (bs : List (Nat × Nat)) : Nat := (lookupA a bs).getD 0

def currencyTransfer (source dest amount : Nat) (bs : List (Nat × Nat)) :
    Except DispatchError (List (Nat × Nat)) :=
  if getBal source bs < amount then .error .InsufficientBalance
  else
    let bs1 := insertA source (getBal source bs - amount) bs
    .ok (insertA dest (getBal dest bs1 + amount) bs1)

/-- The `BridgeOrigin` origin check (`EnsureOrigin` with
`Success = AccountId`): accepts exactly the bridge origin and yields the
bridge's own account. -/
def ensure_bridge (env : BridgeEnv) : Origin → Except DispatchError Nat
  | .Bridge => .ok env.bridgeAccount
  | _ => .error .BadOrigin

/-- The state the example-pallet dispatchables touch: the erc721 pallet's
storage plus the Currency collaborator's balances. -/
structure ChainState where
  erc : Erc721.Erc721State
  balances : List (Nat × Nat)
deriving DecidableEq

/-- `transfer_native` of example-pallet: signed caller; `InvalidTransfer`
if the destination chain is not whitelisted; moves `amount` from the
caller to the bridge account (propagating any failure); then submits the
fungible-transfer message tagged `NativeTokenId`. -/
def transfer_native (env : BridgeEnv) (origin : Origin) (amount : Nat)
    (recipient : List Nat) (destId : Nat) (s : ChainState) :
    Except DispatchError (ChainState × List Message × List Ev) := do
  let source ← ensure_signed origin
  if env.whitelisted destId then do
    let bs ← currencyTransfer source env.bridgeAccount amount s.balances
    .ok ({ s with balances := bs },
         [transfer_fungible destId env.nativeTokenId recipient amount], [])
  else .error .InvalidTransfer

/-- `transfer_erc721` of example-pallet: signed caller; `InvalidTransfer`
if the destination chain is not whitelisted; `InvalidTransfer` if the
token id has no `Tokens` entry; otherwise burns the token with the caller
as asserted owner (propagating `NotOwner`) and submits the
nonfungible-transfer message tagged `Erc721Id` with the 32-byte big-endian
token id, the recipient bytes and the token's metadata. -/
def transfer_erc721 (env : BridgeEnv) (origin : Origin) (recipient : List Nat)
    (tokenId destId : Nat) (s : ChainState) :
    Except DispatchError (ChainState × List Message × List Ev) := do
  let source ← ensure_signed origin
  if env.whitelisted destId then
    match lookupA tokenId s.erc.tokens with
    | some token => do
      let (erc2, evs) ← Erc721.burn_token source tokenId s.erc
      .ok ({ s with erc := erc2 },
           [transfer_nonfungible destId env.erc721Id (toBigEndian32 tokenId)
              recipient token.metadata],
           evs)
    | none => .error .InvalidTransfer
  else .error .InvalidTransfer

/-- `remark` of example-pallet: checks the bridge origin and returns `Ok`.
The source deposits NO event here (its `Event::Remark` variant is declared
but never used), so the call leaves the state as is and emits nothing. -/
def remark (env : BridgeEnv) (origin : Origin) (hash : Nat) (rid : List Nat)
    (s : ChainState) :
    Except DispatchError (ChainState × List Message × List Ev) := do
  let _ ← ensure_bridge env origin
  .ok (s, [], [])

/-- `mint_erc721` of example-pallet: checks the bridge origin, then mints
via `Erc721.mint_token`, propagating its errors (`r_id` is unused in the
source). -/
def mint_erc721 (env : BridgeEnv) (origin : Origin) (recipient id : Nat)
    (metadata rid : List Nat) (s : ChainState) :
    Except DispatchError (ChainState × List Message × List Ev) := do
  let _ ← ensure_bridge env origin
  let (erc2, evs) ← Erc721.mint_token recipient id metadata s.erc
  .ok ({ s with erc := erc2 }, [], evs)

/-- FRAME's transactional dispatch of an example-pallet call: a failed
extrinsic is rolled back, keeping the pre-state, submitting no message,
depositing no event, and reporting the error. -/
def runPalletCall (s : ChainState)
    (r : Except DispatchError (ChainState × List Message × List Ev)) :
    ChainState × List Message × List Ev × Option DispatchError :=
  match r with
  | .ok (s2, msgs, evs) => (s2, msgs, evs, none)
  | .error e => (s, [], [], some e)

end Example

theorem exceptBind_ok {ε α β : Type} (a : α) (g : α → Except ε β) :
    (Except.ok a >>= g) = g a := rfl

theorem exceptBind_error {ε α β : Type} (e : ε) (g : α → Except ε β) :
    ((Except.error e : Except ε α) >>= g) = Except.error e := rfl

/-! Concrete states used by the witnesses. -/

/-- A concrete one-token registry: token 7 with metadata `[1, 2, 3]` owned
by account 5, counter 1. -/
def stOne : Erc721.Erc721State :=
  { tokens := [(7, { id := 7, metadata := [1, 2, 3] })],
    tokenOwner := [(7, 5)],
    tokenCount := 1 }

/-- Claim C1: the spec requires the Supply Counter to equal the number of
live Token Store entries after every successful mint/burn (a burn leaving
it one less than before); but `burn_token` updates `TokenCount` with
`saturating_add(U256::one())`. At the concrete one-token state the burn
succeeds, empties the Token Store, and sets the counter to 2 — neither the
cardinality 0 nor one less than the previous value 1. -/
theorem C1_burn_increments_counter :
    Erc721.burn_token 5 7 stOne =
      .ok ({ tokens := [], tokenOwner := [], tokenCount := 2 }, [.Burned 7]) ∧
    (2 : Nat) ≠ List.length ([] : List (Nat × Erc721.Erc721Token)) ∧
    (2 : Nat) ≠ stOne.tokenCount - 1 := by
  refine ⟨?_, by decide, by decide⟩
  rfl

/-- Claim C2: `mint_token` fails with `TokenAlreadyExists` when the id is
in the Token Store, the rolled-back call leaving the state unchanged;
when the id is absent it succeeds, inserts the token, records the owner,
increments the counter, deposits `Minted`, and any second mint of the same
id is rejected. -/
theorem C2_mint_token_correct (owner id : Nat) (md : List Nat)
    (s : Erc721.Erc721State) :
    (containsKey id s.tokens = true →
      Erc721.runErcCall s (Erc721.mint_token owner id md s) =
        (s, [], some .TokenAlreadyExists)) ∧
    (containsKey id s.tokens = false →
      ∃ s2, Erc721.mint_token owner id md s = .ok (s2, [.Minted owner id]) ∧
        lookupA id s2.tokens = some { id := id, metadata := md } ∧
        lookupA id s2.tokenOwner = some owner ∧
        s2.tokenCount = satAdd1 s.tokenCount ∧
        (∀ owner2 md2, Erc721.mint_token owner2 id md2 s2 =
          .error .TokenAlreadyExists)) := by
  constructor
  · intro h
    simp [Erc721.mint_token, h, Erc721.runErcCall]
  · intro h
    refine ⟨{ tokens := insertA id { id := id, metadata := md } s.tokens,
              tokenOwner := insertA id owner s.tokenOwner,
              tokenCount := satAdd1 s.tokenCount }, ?_, ?_, ?_, rfl, ?_⟩
    · simp [Erc721.mint_token, h]
    · exact lookupA_insertA_self id _ s.tokens
    · exact lookupA_insertA_self id _ s.tokenOwner
    · intro owner2 md2
      have hc : containsKey id (insertA id { id := id, metadata := md } s.tokens)
          = true := by
        simp [containsKey, lookupA_insertA_self]
      simp [Erc721.mint_token, hc]

/-- Witness for C2 at concrete inputs: the already-present branch on
`stOne` and the fresh-mint branch on the empty registry. -/
theorem C2_mint_token_correct_witness :
    Erc721.runErcCall stOne (Erc721.mint_token 9 7 [4] stOne) =
      (stOne, [], some .TokenAlreadyExists) ∧
    (∃ s2, Erc721.mint_token 5 7 [1, 2, 3]
          { tokens := [], tokenOwner := [], tokenCount := 0 } =
        .ok (s2, [.Minted 5 7]) ∧
      lookupA 7 s2.tokens = some { id := 7, metadata := [1, 2, 3] } ∧
      lookupA 7 s2.tokenOwner = some 5 ∧
      s2.tokenCount = satAdd1 0 ∧
      (∀ owner2 md2, Erc721.mint_token owner2 7 md2 s2 =
        .error .TokenAlreadyExists)) :=
  ⟨(C2_mint_token_correct 9 7 [4] stOne).1 (by decide),
   (C2_mint_token_correct 5 7 [1, 2, 3]
      { tokens := [], tokenOwner := [], tokenCount := 0 }).2 (by decide)⟩

/-- Claim C3: on a state satisfying the store/owner coupling invariant,
`transfer_from` fails with `TokenIdDoesNotExist` when the id has no live
record and with `NotOwner` when the recorded owner differs from the
sender, the rolled-back call leaving the Ownership Map unchanged; on
success it rewrites the Ownership Map entry to the receiver, deposits
`Transferred`, and leaves the Token Store, the counter and all other
owner entries untouched. -/
theorem C3_transfer_from_correct (sender receiver id : Nat)
    (s : Erc721.Erc721State) (hinv : Erc721.storeOwnerInv s) :
    (lookupA id s.tokens = none →
      Erc721.runErcCall s (Erc721.transfer_from sender receiver id s) =
        (s, [], some .TokenIdDoesNotExist)) ∧
    (∀ ow, lookupA id s.tokenOwner = some ow → ow ≠ sender →
      Erc721.runErcCall s (Erc721.transfer_from sender receiver id s) =
        (s, [], some .NotOwner)) ∧
    (lookupA id s.tokenOwner = some sender →
      ∃ s2, Erc721.transfer_from sender receiver id s =
          .ok (s2, [.Transferred sender receiver id]) ∧
        lookupA id s2.tokenOwner = some receiver ∧
        s2.tokens = s.tokens ∧ s2.tokenCount = s.tokenCount ∧
        (∀ j, j ≠ id → lookupA j s2.tokenOwner = lookupA j s.tokenOwner)) := by
  refine ⟨?_, ?_, ?_⟩
  · intro h
    have h2 : lookupA id s.tokenOwner = none := by
      have hiff := (Erc721.storeOwnerInv_iff s).mp hinv id
      rw [h] at hiff
      cases how : lookupA id s.tokenOwner with
      | none => rfl
      | some w => rw [how] at hiff; simp at hiff
    simp [Erc721.transfer_from, h2, Erc721.runErcCall]
  · intro ow how hne
    simp [Erc721.transfer_from, how, hne, Erc721.runErcCall]
  · intro how
    refine ⟨{ s with tokenOwner := insertA id receiver s.tokenOwner },
            ?_, ?_, rfl, rfl, ?_⟩
    · simp [Erc721.transfer_from, how]
    · exact lookupA_insertA_self id receiver s.tokenOwner
    · intro j hj
      exact lookupA_insertA_ne hj receiver s.tokenOwner

/-- Witness for C3 at concrete inputs on `stOne`: the missing-id branch,
the non-owner branch and the success branch. -/
theorem C3_transfer_from_correct_witness :
    Erc721.runErcCall stOne (Erc721.transfer_from 6 2 8 stOne) =
      (stOne, [], some .TokenIdDoesNotExist) ∧
    Erc721.runErcCall stOne (Erc721.transfer_from 6 2 7 stOne) =
      (stOne, [], some .NotOwner) ∧
    (∃ s2, Erc721.transfer_from 5 2 7 stOne = .ok (s2, [.Transferred 5 2 7]) ∧
      lookupA 7 s2.tokenOwner = some 2 ∧
      s2.tokens = stOne.tokens ∧ s2.tokenCount = stOne.tokenCount ∧
      (∀ j, j ≠ 7 → lookupA j s2.tokenOwner = lookupA j stOne.tokenOwner)) :=
  ⟨(C3_transfer_from_correct 6 2 8 stOne (by decide)).1 (by decide),
   (C3_transfer_from_correct 6 2 7 stOne (by decide)).2.1 5 (by decide) (by decide),
   (C3_transfer_from_correct 5 2 7 stOne (by decide)).2.2 (by decide)⟩

/-- A concrete bridge environment: chain 1 whitelisted, chain 0 not;
bridge account 100; hash, native and erc721 resource ids `[1]`, `[2]`,
`[3]`. -/
def envA : Example.BridgeEnv :=
  { whitelisted := fun c => c == 1,
    bridgeAccount := 100,
    hashId := [1],
    nativeTokenId := [2],
    erc721Id := [3] }

/-- A concrete chain state: the one-token registry `stOne` plus account 5
holding balance 10. -/
def chA : Example.ChainState := { erc := stOne, balances := [(5, 10)] }

/-- Claim C4: `transfer_erc721` (send_token), by a signed caller, fails
with `InvalidTransfer` when the destination is not whitelisted and when
the token has no `Tokens` entry, and with `NotOwner` when the recorded
owner differs from the caller; in every failure case the rolled-back call
leaves the state (token still present with its original owner) unchanged
and submits no message. -/
theorem C4_send_token_error_paths (env : Example.BridgeEnv) (source : Nat)
    (recipient : List Nat) (tokenId destId : Nat) (s : Example.ChainState) :
    (env.whitelisted destId = false →
      Example.runPalletCall s
          (Example.transfer_erc721 env (.Signed source) recipient tokenId destId s) =
        (s, [], [], some .InvalidTransfer)) ∧
    (env.whitelisted destId = true → lookupA tokenId s.erc.tokens = none →
      Example.runPalletCall s
          (Example.transfer_erc721 env (.Signed source) recipient tokenId destId s) =
        (s, [], [], some .InvalidTransfer)) ∧
    (∀ tok ow, env.whitelisted destId = true →
      lookupA tokenId s.erc.tokens = some tok →
      lookupA tokenId s.erc.tokenOwner = some ow → ow ≠ source →
      Example.runPalletCall s
          (Example.transfer_erc721 env (.Signed source) recipient tokenId destId s) =
        (s, [], [], some .NotOwner)) := by
  refine ⟨?_, ?_, ?_⟩
  · intro hw
    simp [Example.transfer_erc721, ensure_signed, hw, exceptBind_ok,
      Example.runPalletCall]
  · intro hw htok
    simp [Example.transfer_erc721, ensure_signed, hw, htok, exceptBind_ok,
      Example.runPalletCall]
  · intro tok ow hw htok how hne
    simp [Example.transfer_erc721, ensure_signed, hw, htok, exceptBind_ok,
      Erc721.burn_token, how, hne, exceptBind_error, Example.runPalletCall]

/-- Witness for C4 on `envA`/`chA`: non-whitelisted destination 0, missing
token 8, and caller 6 who does not own token 7. -/
theorem C4_send_token_error_paths_witness :
    Example.runPalletCall chA
        (Example.transfer_erc721 envA (.Signed 5) [9] 7 0 chA) =
      (chA, [], [], some .InvalidTransfer) ∧
    Example.runPalletCall chA
        (Example.transfer_erc721 envA (.Signed 5) [9] 8 1 chA) =
      (chA, [], [], some .InvalidTransfer) ∧
    Example.runPalletCall chA
        (Example.transfer_erc721 envA (.Signed 6) [9] 7 1 chA) =
      (chA, [], [], some .NotOwner) :=
  ⟨(C4_send_token_error_paths envA 5 [9] 7 0 chA).1 (by decide),
   (C4_send_token_error_paths envA 5 [9] 8 1 chA).2.1 (by decide) (by decide),
   (C4_send_token_error_paths envA 6 [9] 7 1 chA).2.2
     { id := 7, metadata := [1, 2, 3] } 5 (by decide) (by decide) (by decide)
     (by decide)⟩

/-- Claim C5: a successful `transfer_erc721` (whitelisted destination,
live token owned by the caller) removes the token from both the Token
Store and the Ownership Map and submits exactly one message, tagged with
the erc721 resource identifier, whose payload is the 32-byte big-endian
token id, then the recipient bytes, then the token's metadata bytes. -/
theorem C5_send_token_success (env : Example.BridgeEnv) (source : Nat)
    (recipient : List Nat) (tokenId destId : Nat) (s : Example.ChainState)
    (tok : Erc721.Erc721Token) :
    env.whitelisted destId = true →
    lookupA tokenId s.erc.tokens = some tok →
    lookupA tokenId s.erc.tokenOwner = some source →
    ∃ s2, Example.transfer_erc721 env (.Signed source) recipient tokenId destId s =
        .ok (s2,
          [{ dest := destId, resourceId := env.erc721Id,
             payload := Example.toBigEndian32 tokenId ++ recipient ++ tok.metadata }],
          [.Burned tokenId]) ∧
      lookupA tokenId s2.erc.tokens = none ∧
      lookupA tokenId s2.erc.tokenOwner = none ∧
      s2.balances = s.balances := by
  intro hw htok how
  refine ⟨{ erc := { tokens := removeA tokenId s.erc.tokens,
                     tokenOwner := removeA tokenId s.erc.tokenOwner,
                     tokenCount := satAdd1 s.erc.tokenCount },
            balances := s.balances }, ?_, ?_, ?_, rfl⟩
  · simp [Example.transfer_erc721, ensure_signed, hw, htok, exceptBind_ok,
      Erc721.burn_token, how, Example.transfer_nonfungible]
  · exact lookupA_removeA_self tokenId s.erc.tokens
  · exact lookupA_removeA_self tokenId s.erc.tokenOwner

/-- Witness for C5: the spec's end-to-end scenario — token 7 with
metadata `[1, 2, 3]` owned by account 5, sent to recipient bytes `[9]` on
whitelisted chain 1. -/
theorem C5_send_token_success_witness :
    ∃ s2, Example.transfer_erc721 envA (.Signed 5) [9] 7 1 chA =
        .ok (s2,
          [{ dest := 1, resourceId := envA.erc721Id,
             payload := Example.toBigEndian32 7 ++ [9] ++
               (Erc721.Erc721Token.mk 7 [1, 2, 3]).metadata }],
          [.Burned 7]) ∧
      lookupA 7 s2.erc.tokens = none ∧
      lookupA 7 s2.erc.tokenOwner = none ∧
      s2.balances = chA.balances :=
  C5_send_token_success envA 5 [9] 7 1 chA { id := 7, metadata := [1, 2, 3] }
    (by decide) (by decide) (by decide)

/-- Claim C6: `transfer_native` (send_currency) by a signed caller fails
with `InvalidTransfer` before any balance movement when the destination is
not whitelisted, and when the caller's balance is insufficient for the
move to the bridge account the whole call fails; in both cases the
rolled-back call leaves the balances unchanged and submits no message. -/
theorem C6_send_currency_error_paths (env : Example.BridgeEnv)
    (source amount : Nat) (recipient : List Nat) (destId : Nat)
    (s : Example.ChainState) :
    (env.whitelisted destId = false →
      Example.runPalletCall s
          (Example.transfer_native env (.Signed source) amount recipient destId s) =
        (s, [], [], some .InvalidTransfer)) ∧
    (env.whitelisted destId = true →
      Example.getBal source s.balances < amount →
      Example.runPalletCall s
          (Example.transfer_native env (.Signed source) amount recipient destId s) =
        (s, [], [], some .InsufficientBalance)) := by
  constructor
  · intro hw
    simp [Example.transfer_native, ensure_signed, hw, exceptBind_ok,
      Example.runPalletCall]
  · intro hw hb
    simp [Example.transfer_native, ensure_signed, hw, exceptBind_ok,
      Example.currencyTransfer, hb, exceptBind_error, Example.runPalletCall]

/-- Witness for C6 on `envA`/`chA`: non-whitelisted destination 0, and an
attempted move of 20 from account 5 whose balance is 10. -/
theorem C6_send_currency_error_paths_witness :
    Example.runPalletCall chA
        (Example.transfer_native envA (.Signed 5) 20 [9] 0 chA) =
      (chA, [], [], some .InvalidTransfer) ∧
    Example.runPalletCall chA
        (Example.transfer_native envA (.Signed 5) 20 [9] 1 chA) =
      (chA, [], [], some .InsufficientBalance) :=
  ⟨(C6_send_currency_error_paths envA 5 20 [9] 0 chA).1 (by decide),
   (C6_send_currency_error_paths envA 5 20 [9] 1 chA).2 (by decide) (by decide)⟩

/-- Claim C7: on a state satisfying the store/owner coupling invariant, an
id has a Token Store entry exactly when it has an Ownership Map entry, the
recorded owner is unique, and every successful `mint_token`,
`transfer_from` and `burn_token` preserves the invariant. -/
theorem C7_registry_invariant_preserved (s : Erc721.Erc721State)
    (hinv : Erc721.storeOwnerInv s) :
    (∀ id, (lookupA id s.tokens).isSome = (lookupA id s.tokenOwner).isSome) ∧
    (∀ id ow ow2, lookupA id s.tokenOwner = some ow →
      lookupA id s.tokenOwner = some ow2 → ow = ow2) ∧
    (∀ owner id md s2 evs, Erc721.mint_token owner id md s = .ok (s2, evs) →
      Erc721.storeOwnerInv s2) ∧
    (∀ sender receiver id s2 evs,
      Erc721.transfer_from sender receiver id s = .ok (s2, evs) →
      Erc721.storeOwnerInv s2) ∧
    (∀ sender id s2 evs, Erc721.burn_token sender id s = .ok (s2, evs) →
      Erc721.storeOwnerInv s2) := by
  have hpt := (Erc721.storeOwnerInv_iff s).mp hinv
  refine ⟨hpt, ?_, ?_, ?_, ?_⟩
  · intro id ow ow2 h1 h2
    rw [h1] at h2
    exact (Option.some.injEq _ _ ▸ h2 : ow = ow2)
  · intro owner id md s2 evs hcall
    by_cases h : containsKey id s.tokens
    · simp [Erc721.mint_token, h] at hcall
    · rw [Erc721.mint_token, if_neg h] at hcall
      simp only [Except.ok.injEq, Prod.mk.injEq] at hcall
      obtain ⟨rfl, rfl⟩ := hcall
      rw [Erc721.storeOwnerInv_iff]
      intro j
      by_cases hj : j = id
      · subst hj
        simp [lookupA_insertA_self]
      · simp only [lookupA_insertA_ne hj]
        exact hpt j
  · intro sender receiver id s2 evs hcall
    cases how : lookupA id s.tokenOwner with
    | none => simp [Erc721.transfer_from, how] at hcall
    | some ow =>
      by_cases he : ow = sender
      · rw [Erc721.transfer_from, how] at hcall
        simp only [he, if_pos rfl, Except.ok.injEq, Prod.mk.injEq] at hcall
        obtain ⟨rfl, rfl⟩ := hcall
        rw [Erc721.storeOwnerInv_iff]
        intro j
        by_cases hj : j = id
        · subst hj
          have hj2 := hpt j
          rw [how] at hj2
          simpa [lookupA_insertA_self] using hj2
        · simp only [lookupA_insertA_ne hj]
          exact hpt j
      · simp [Erc721.transfer_from, how, he] at hcall
  · intro sender id s2 evs hcall
    cases how : lookupA id s.tokenOwner with
    | none => simp [Erc721.burn_token, how] at hcall
    | some ow =>
      by_cases he : ow = sender
      · rw [Erc721.burn_token, how] at hcall
        simp only [he, if_pos rfl, Except.ok.injEq, Prod.mk.injEq] at hcall
        obtain ⟨rfl, rfl⟩ := hcall
        rw [Erc721.storeOwnerInv_iff]
        intro j
        by_cases hj : j = id
        · subst hj
          simp [lookupA_removeA_self]
        · simp only [lookupA_removeA_ne hj]
          exact hpt j
      · simp [Erc721.burn_token, how, he] at hcall

/-- Witness for C7 on `stOne`: the pointwise coupling, and invariant
preservation across the successful burn of token 7 by its owner 5. -/
theorem C7_registry_invariant_preserved_witness :
    (∀ id, (lookupA id stOne.tokens).isSome = (lookupA id stOne.tokenOwner).isSome) ∧
    Erc721.storeOwnerInv { tokens := [], tokenOwner := [], tokenCount := 2 } :=
  ⟨(C7_registry_invariant_preserved stOne (by decide)).1,
   (C7_registry_invariant_preserved stOne (by decide)).2.2.2.2 5 7
     { tokens := [], tokenOwner := [], tokenCount := 2 } [.Burned 7] rfl⟩

/-- Claim C8 (code_bug evidence): `remark`, called from the authenticated
bridge origin, checks the origin and returns Ok while depositing NO event
at all — the received hash appears in no notification, although the pallet
declares a `Remark` event variant for exactly this and the spec says the
received value is recorded/emitted. -/
theorem C8_remark_emits_nothing (env : Example.BridgeEnv) (hash : Nat)
    (rid : List Nat) (s : Example.ChainState) :
    Example.remark env .Bridge hash rid s = .ok (s, [], []) := rfl

/-- Claim C9: `mint_erc721` from the bridge origin mints a fresh token to
the recipient when the id is not live, and propagates
`TokenAlreadyExists` when it is, the rolled-back call leaving the existing
token unchanged. -/
theorem C9_apply_token_correct (env : Example.BridgeEnv) (recipient id : Nat)
    (md rid : List Nat) (s : Example.ChainState) :
    (containsKey id s.erc.tokens = false →
      ∃ s2, Example.mint_erc721 env .Bridge recipient id md rid s =
          .ok (s2, [], [.Minted recipient id]) ∧
        lookupA id s2.erc.tokens = some { id := id, metadata := md } ∧
        lookupA id s2.erc.tokenOwner = some recipient ∧
        s2.balances = s.balances) ∧
    (containsKey id s.erc.tokens = true →
      Example.runPalletCall s
          (Example.mint_erc721 env .Bridge recipient id md rid s) =
        (s, [], [], some .TokenAlreadyExists)) := by
  constructor
  · intro h
    refine ⟨{ erc := { tokens := insertA id { id := id, metadata := md } s.erc.tokens,
                       tokenOwner := insertA id recipient s.erc.tokenOwner,
                       tokenCount := satAdd1 s.erc.tokenCount },
              balances := s.balances }, ?_, ?_, ?_, rfl⟩
    · simp [Example.mint_erc721, Example.ensure_bridge, exceptBind_ok,
        Erc721.mint_token, h]
    · exact lookupA_insertA_self id _ s.erc.tokens
    · exact lookupA_insertA_self id _ s.erc.tokenOwner
  · intro h
    simp [Example.mint_erc721, Example.ensure_bridge, exceptBind_ok,
      Erc721.mint_token, h, exceptBind_error, Example.runPalletCall]

/-- Witness for C9 on `envA`/`chA`: the spec's inbound scenario — the
bridge mints fresh token 42 to account 8 — and the rejected re-mint of the
live token 7. -/
theorem C9_apply_token_correct_witness :
    (∃ s2, Example.mint_erc721 envA .Bridge 8 42 [7] [3] chA =
        .ok (s2, [], [.Minted 8 42]) ∧
      lookupA 42 s2.erc.tokens = some { id := 42, metadata := [7] } ∧
      lookupA 42 s2.erc.tokenOwner = some 8 ∧
      s2.balances = chA.balances) ∧
    Example.runPalletCall chA (Example.mint_erc721 envA .Bridge 8 7 [7] [3] chA) =
      (chA, [], [], some .TokenAlreadyExists) :=
  ⟨(C9_apply_token_correct envA 8 42 [7] [3] chA).1 (by decide),
   (C9_apply_token_correct envA 8 7 [7] [3] chA).2 (by decide)⟩

/-- Claim C10: the root-gated `burn` dispatchable looks up the current
owner itself and passes it to `burn_token` as the asserted owner, so on a
state satisfying the coupling invariant it succeeds for every live token
whoever owns it, fails with `TokenIdDoesNotExist` exactly when the id has
no live record, and never fails with `NotOwner`. -/
theorem C10_root_burn_correct (id : Nat) (s : Erc721.Erc721State)
    (hinv : Erc721.storeOwnerInv s) :
    (lookupA id s.tokens = none →
      Erc721.runErcCall s (Erc721.burn .Root id s) =
        (s, [], some .TokenIdDoesNotExist)) ∧
    (∀ tok, lookupA id s.tokens = some tok →
      ∃ s2, Erc721.burn .Root id s = .ok (s2, [.Burned id])) ∧
    (∀ e, Erc721.burn .Root id s = .error e → e = .TokenIdDoesNotExist) := by
  have hpt := (Erc721.storeOwnerInv_iff s).mp hinv
  refine ⟨?_, ?_, ?_⟩
  · intro h
    have h2 : lookupA id s.tokenOwner = none := by
      have hj := hpt id
      rw [h] at hj
      cases how : lookupA id s.tokenOwner with
      | none => rfl
      | some w => rw [how] at hj; simp at hj
    simp [Erc721.burn, ensure_root, exceptBind_ok, h2, Erc721.runErcCall]
  · intro tok htok
    have h2 : (lookupA id s.tokenOwner).isSome = true := by
      have hj := hpt id
      rw [htok] at hj
      exact hj.symm
    obtain ⟨ow, how⟩ := Option.isSome_iff_exists.mp h2
    refine ⟨{ tokens := removeA id s.tokens,
              tokenOwner := removeA id s.tokenOwner,
              tokenCount := satAdd1 s.tokenCount }, ?_⟩
    simp [Erc721.burn, ensure_root, exceptBind_ok, how, Erc721.burn_token]
  · intro e he
    cases how : lookupA id s.tokenOwner with
    | none =>
      simp [Erc721.burn, ensure_root, exceptBind_ok, how] at he
      exact he.symm
    | some ow =>
      simp [Erc721.burn, ensure_root, exceptBind_ok, how,
        Erc721.burn_token] at he

/-- Witness for C10 on `stOne`: burning the missing id 8 fails with
`TokenIdDoesNotExist`, burning the live token 7 succeeds under root even
though account 5 owns it, and the concrete failure's error is
`TokenIdDoesNotExist`. -/
theorem C10_root_burn_correct_witness :
    Erc721.runErcCall stOne (Erc721.burn .Root 8 stOne) =
      (stOne, [], some .TokenIdDoesNotExist) ∧
    (∃ s2, Erc721.burn .Root 7 stOne = .ok (s2, [.Burned 7])) ∧
    DispatchError.TokenIdDoesNotExist = .TokenIdDoesNotExist :=
  ⟨(C10_root_burn_correct 8 stOne (by decide)).1 (by decide),
   (C10_root_burn_correct 7 stOne (by decide)).2.1
     { id := 7, metadata := [1, 2, 3] } (by decide),
   (C10_root_burn_correct 8 stOne (by decide)).2.2 .TokenIdDoesNotExist rfl⟩

end ChainBridge
